import Mathlib

set_option linter.unusedVariables false

/-!
Shallow embedding of the velecs frame-execution pipeline and GPU resource
lifecycle manager (`RenderingECSModule.cpp`, `Input.cpp`, `Transform.cpp`,
`PipelineStages.h`), together with proofs settling the frozen claims about
the natural-language specification of the repository.

Machine handles (VkPipeline, VkImage, VkImageView, VkFramebuffer, buffer
identifiers, SDL keycodes) are represented by `Nat`; a nullable handle is an
`Option Nat` with `none` standing for `VK_NULL_HANDLE`.  Byte sizes are `Nat`.
Positions are integer vectors (`Vec3` over `Int`): the claims about
`Transform::GetAbsPosition` are structural-arithmetic claims about which
ancestor positions are added or subtracted, which the integer model captures
exactly.
-/

/-- Vulkan result codes relevant to the embedded control flow.  `success`
models `VK_SUCCESS` (numeric value 0); all other constructors model distinct
nonzero codes, so the `VK_CHECK(x)` macro (which calls `abort()` whenever the
result is nonzero) aborts exactly on the constructors other than `success`. -/
inductive VkResult where
  | success
  | timeout
  | suboptimalKhr
  | errorOutOfDateKhr
  | errorDeviceLost
  deriving DecidableEq, Repr

/-! ## Deletion queue (claim C1)

The `DeletionQueue` class itself is not among the provided source files; only
its call sites in `RenderingECSModule.cpp` are (`PushDeletor` at lines 654,
805 and 1340; `Flush` at line 245 in the destructor). -/

/-- Modelled from the spec: the `DeletionQueue` implementation
(`velecs/Memory/DeletionQueue`) is missing from the provided sources.  Per the
spec (sections 3 and 4.3) the queue is an append-only ordered sequence of
zero-argument release actions; actions are represented here by `Nat`
identifiers and the list holds them in insertion order. -/
structure DeletionQueue where
  deletors : List Nat
  deriving DecidableEq, Repr

/-- Modelled from the spec: `Push(action)` appends an action and never
fails. -/
def DeletionQueue.PushDeletor (q : DeletionQueue) (a : Nat) : DeletionQueue :=
  ⟨q.deletors ++ [a]⟩

/-- Modelled from the spec: `DrainAll()` executes every action in strict
reverse order of insertion, then empties the queue.  The first component is
the list of executed actions in execution order; the second is the queue as
it remains afterwards. -/
def DeletionQueue.Flush (q : DeletionQueue) : List Nat × DeletionQueue :=
  (q.deletors.reverse, ⟨[]⟩)

/-- The queue in its initial (empty) state. -/
def DeletionQueue.empty : DeletionQueue := ⟨[]⟩

/-- Pushing a whole sequence of actions, first element pushed first. -/
def DeletionQueue.pushAll (q : DeletionQueue) (as : List Nat) : DeletionQueue :=
  as.foldl DeletionQueue.PushDeletor q

/-! ## Per-key input classification (claim C9), from `Input.cpp` -/

/-- Lookup of a keycode in a sampled key-flag map (`prevKeyFlags` /
`currKeyFlags`), as in `Input::GetState` lines 23-27: a keycode absent from
the map is treated as not down (`false`). -/
def lookupKeyFlag (flags : List (Nat × Bool)) (keycode : Nat) : Bool :=
  match flags.lookup keycode with
  | some b => b
  | none => false

/-- The four-valued key state returned by `Input::GetState`. -/
inductive KeyState where
  | Pressed
  | Held
  | Released
  | Idle
  deriving DecidableEq, Repr

/-- The `Input` component state consumed by `GetState`: the previous and the
current sampled key-flag maps, plus the quit flag read by the Housekeeping
system. -/
structure Input where
  prevKeyFlags : List (Nat × Bool)
  currKeyFlags : List (Nat × Bool)
  isQuitting : Bool
  deriving DecidableEq, Repr

/-- Embedding of `Input::GetState` (`Input.cpp` lines 21-45). -/
def Input.GetState (input : Input) (keycode : Nat) : KeyState :=
  let prevFlag := lookupKeyFlag input.prevKeyFlags keycode
  let currFlag := lookupKeyFlag input.currKeyFlags keycode
  if !prevFlag && currFlag then KeyState.Pressed
  else if prevFlag && currFlag then KeyState.Held
  else if prevFlag && !currFlag then KeyState.Released
  else KeyState.Idle

/-- Embedding of `Input::IsPressed` (`Input.cpp` lines 47-50). -/
def Input.IsPressed (input : Input) (keycode : Nat) : Bool :=
  input.GetState keycode == KeyState.Pressed

/-- Embedding of `Input::IsHeld` (`Input.cpp` lines 52-58): a key in the
`Pressed` state also counts as held. -/
def Input.IsHeld (input : Input) (keycode : Nat) : Bool :=
  input.GetState keycode == KeyState.Pressed ||
    input.GetState keycode == KeyState.Held

/-- Embedding of `Input::IsIdle` (`Input.cpp` lines 60-63). -/
def Input.IsIdle (input : Input) (keycode : Nat) : Bool :=
  input.GetState keycode == KeyState.Idle

/-! ## Transform ancestry walk (claim C10), from `Transform.cpp` -/

/-- Integer 3-vector standing in for the float `Vec3` of the source; the
claim about `GetAbsPosition` concerns which ancestor positions get added or
subtracted, captured exactly by integer components. -/
structure Vec3 where
  x : Int
  y : Int
  z : Int
  deriving DecidableEq, Repr

def Vec3.add (a b : Vec3) : Vec3 := ⟨a.x + b.x, a.y + b.y, a.z + b.z⟩

def Vec3.sub (a b : Vec3) : Vec3 := ⟨a.x - b.x, a.y - b.y, a.z - b.z⟩

def Vec3.zero : Vec3 := ⟨0, 0, 0⟩

/-- Sum of a list of vectors. -/
def Vec3.sumList (vs : List Vec3) : Vec3 := vs.foldr Vec3.add Vec3.zero

/-- A transform with its finite chain of parent transforms.  A `leaf` is a
transform for which `TryGetParentTransform` fails (no parent entity, or the
parent entity has no `Transform` component); a `node` has a parent transform
resolved through the entity store. -/
inductive TransformNode where
  | leaf (position : Vec3)
  | node (position : Vec3) (parent : TransformNode)
  deriving DecidableEq, Repr

/-- The `position` field of a transform. -/
def TransformNode.position : TransformNode → Vec3
  | .leaf p => p
  | .node p _ => p

/-- The walk-to-root loop body of `Transform::GetAbsPosition` (`Transform.cpp`
lines 86-89): having just stepped to ancestor `t`, subtract its position from
the accumulator and continue with the next ancestor. -/
def TransformNode.absWalk : TransformNode → Vec3 → Vec3
  | .leaf pos, acc => Vec3.sub acc pos
  | .node pos q, acc => TransformNode.absWalk q (Vec3.sub acc pos)

/-- Embedding of `Transform::GetAbsPosition` (`Transform.cpp` lines 81-92):
start from the own position; while a parent transform exists, subtract that
ancestor position from the accumulator. -/
def TransformNode.GetAbsPosition : TransformNode → Vec3
  | .leaf pos => pos
  | .node pos q => TransformNode.absWalk q pos

/-- The positions of a transform and all transforms above it, nearest
first. -/
def TransformNode.chainPositions : TransformNode → List Vec3
  | .leaf pos => [pos]
  | .node pos q => pos :: TransformNode.chainPositions q

/-- The positions of the strict ancestors of a transform, nearest first. -/
def TransformNode.ancestorPositions : TransformNode → List Vec3
  | .leaf _ => []
  | .node _ q => TransformNode.chainPositions q

/-! ## Immediate submit and upload fence wait (claim C3), from
`RenderingECSModule::ImmediateSubmit`, lines 1353-1379 -/

/-- Error values the staged-upload spec says the uploader raises. -/
inductive UploadError where
  | transferTimeout
  | allocation
  deriving DecidableEq, Repr

/-- Control outcome of `ImmediateSubmit`: process aborted by a failing
`VK_CHECK`, an error raised to the caller, or normal completion. -/
inductive ImmediateSubmitControl where
  | abortedVkCheck
  | raised (e : UploadError)
  | completed
  deriving DecidableEq, Repr

/-- Final state of one `ImmediateSubmit` call. -/
structure ImmediateSubmitOutcome where
  control : ImmediateSubmitControl
  uploadFenceReset : Bool
  uploadCommandPoolReset : Bool
  deriving DecidableEq, Repr

/-- Embedding of `RenderingECSModule::ImmediateSubmit` (lines 1353-1379).
`vkBeginCommandBuffer`, `vkEndCommandBuffer` and `vkQueueSubmit` are wrapped
in `VK_CHECK`, so any nonzero result aborts the process.  The call
`vkWaitForFences(_device, 1, &_uploadContext._uploadFence, true, 9999999999)`
at line 1374 is NOT wrapped and its result is discarded: whatever
`fenceWaitResult` is (including `timeout`), execution falls through to
`vkResetFences` and `vkResetCommandPool` and the function returns
normally. -/
def immediateSubmit (beginResult endResult submitResult fenceWaitResult : VkResult) :
    ImmediateSubmitOutcome :=
  if beginResult ≠ VkResult.success then
    { control := ImmediateSubmitControl.abortedVkCheck
      uploadFenceReset := false
      uploadCommandPoolReset := false }
  else if endResult ≠ VkResult.success then
    { control := ImmediateSubmitControl.abortedVkCheck
      uploadFenceReset := false
      uploadCommandPoolReset := false }
  else if submitResult ≠ VkResult.success then
    { control := ImmediateSubmitControl.abortedVkCheck
      uploadFenceReset := false
      uploadCommandPoolReset := false }
  else
    { control := ImmediateSubmitControl.completed
      uploadFenceReset := true
      uploadCommandPoolReset := true }

/-! ## Upload buffer sizes (claim C4), from
`RenderingECSModule::UploadMesh`, lines 1213-1351 -/

/-- The six byte counts fixed by `UploadMesh`. -/
structure UploadMeshSizes where
  stagingVertexBufferSize : Nat
  vertexBytesCopied : Nat
  gpuVertexBufferSize : Nat
  stagingIndexBufferSize : Nat
  indexBytesCopied : Nat
  gpuIndexBufferSize : Nat
  deriving DecidableEq, Repr

/-- Embedding of the size computations of `UploadMesh`, parameterized by the
platform constants `sizeof(SimpleMesh)`, `sizeof(SimpleVertex)` and
`sizeof(uint32_t)`.  Line 1221 computes
`verticesBufferSize = mesh._vertices.size() * sizeof(SimpleMesh)` (the mesh
struct, not the vertex type); this value sizes both the staging vertex buffer
(line 1226) and the device-local vertex buffer (line 1282).  The memcpy at
line 1264 copies `mesh._vertices.size() * sizeof(SimpleVertex)` bytes.  The
index path (lines 1244, 1247, 1270, 1299) uses
`mesh._indices.size() * sizeof(uint32_t)` consistently for all three. -/
def uploadMeshSizes (sizeofSimpleMesh sizeofSimpleVertex sizeofUint32
    numVertices numIndices : Nat) : UploadMeshSizes :=
  { stagingVertexBufferSize := numVertices * sizeofSimpleMesh
    vertexBytesCopied := numVertices * sizeofSimpleVertex
    gpuVertexBufferSize := numVertices * sizeofSimpleMesh
    stagingIndexBufferSize := numIndices * sizeofUint32
    indexBytesCopied := numIndices * sizeofUint32
    gpuIndexBufferSize := numIndices * sizeofUint32 }

/-! ## Present-result handling (claim C5), from
`RenderingECSModule::PostDrawStep`, lines 1142-1165 -/

/-- What the tail of `PostDrawStep` does with the `vkQueuePresentKHR`
result. -/
structure PresentOutcome where
  fatalAbort : Bool
  requestsSwapchainRebuild : Bool
  deriving DecidableEq, Repr

/-- Embedding of the present-result handling (lines 1154-1161).  An
out-of-date or suboptimal result takes the first branch, whose body is empty:
no abort, and no state of any kind is set (in particular nothing records that
the swapchain needs rebuilding).  Every other result goes through
`VK_CHECK(result)`, which aborts exactly when the result is nonzero. -/
def postDrawPresentHandling (result : VkResult) : PresentOutcome :=
  if result = VkResult.errorOutOfDateKhr ∨ result = VkResult.suboptimalKhr then
    { fatalAbort := false, requestsSwapchainRebuild := false }
  else if result = VkResult.success then
    { fatalAbort := false, requestsSwapchainRebuild := false }
  else
    { fatalAbort := true, requestsSwapchainRebuild := false }

/-! ## Draw-loop pipeline binding (claim C2), from the Draw-stage system
lambda (lines 124-187) and `RenderingECSModule::BindPipeline`
(lines 1167-1185) -/

/-- The per-entity data the draw loop reads: whether `mesh._vertices` is
nonempty, the material pipeline handle (`none` models a null
`material.pipeline`), and the material pipeline-layout handle. -/
structure DrawEntity where
  meshHasVertices : Bool
  pipeline : Option Nat
  pipelineLayout : Option Nat
  deriving DecidableEq, Repr

/-- Embedding of `RenderingECSModule::BindPipeline` (lines 1167-1185) at the
level of the bound-pipeline state: the function issues `vkCmdBindPipeline`
and sets viewport and scissor, and it does not assign `currentPipeline`
(no statement in the function, or anywhere else in the translation unit,
writes that member), so the tracked state is returned unchanged. -/
def bindPipelineState (currentPipeline : Option Nat) (material : DrawEntity) :
    Option Nat :=
  currentPipeline

/-- Embedding of the Draw-stage entity loop (lines 153-185), recording the
indices at which `BindPipeline` is invoked.  An entity with an empty vertex
list, a null pipeline or a null pipeline layout is skipped (line 160);
otherwise `BindPipeline` is called when `currentPipeline != *material.pipeline`
(line 170), and the bound-pipeline state evolves by `bindPipelineState`. -/
def drawSystemBinds (currentPipeline : Option Nat) (idx : Nat) :
    List DrawEntity → List Nat
  | [] => []
  | e :: rest =>
    if e.meshHasVertices = false ∨ e.pipeline = none ∨ e.pipelineLayout = none then
      drawSystemBinds currentPipeline (idx + 1) rest
    else if currentPipeline ≠ e.pipeline then
      idx :: drawSystemBinds (bindPipelineState currentPipeline e) (idx + 1) rest
    else
      drawSystemBinds currentPipeline (idx + 1) rest

/-- The draw sequence of the spec property: four drawable entities whose
materials reference pipelines P1, P1, P2, P1 (here 1, 1, 2, 1), all with
vertex data and a valid pipeline layout. -/
def fourDrawSequence : List DrawEntity :=
  [{ meshHasVertices := true, pipeline := some 1, pipelineLayout := some 10 },
   { meshHasVertices := true, pipeline := some 1, pipelineLayout := some 10 },
   { meshHasVertices := true, pipeline := some 2, pipelineLayout := some 10 },
   { meshHasVertices := true, pipeline := some 1, pipelineLayout := some 10 }]

/-! ## Swapchain recreation counts (claim C6), from
`RenderingECSModule::OnWindowResize` (lines 290-325), `InitSwapchain`
(lines 533-605), `CleanupSwapchain` (lines 607-633), `InitFrameBuffers`
(lines 748-777) and `CleanupFrameBuffers` (lines 779-786) -/

/-- The swapchain-derived resource state of the module. -/
structure SwapchainResources where
  swapchainValid : Bool
  swapchainImages : List Nat
  swapchainImageViews : List Nat
  framebuffers : List Nat
  depthImageView : Option Nat
  windowExtentW : Nat
  windowExtentH : Nat
  deriving DecidableEq, Repr

/-- Embedding of `CleanupSwapchain` (lines 607-633): destroys the depth view
and image, destroys every image view and clears that list, destroys the
swapchain handle.  Note the `_swapchainImages` list is not cleared by the
source. -/
def cleanupSwapchain (s : SwapchainResources) : SwapchainResources :=
  { s with depthImageView := none, swapchainImageViews := [], swapchainValid := false }

/-- Embedding of `CleanupFrameBuffers` (lines 779-786): destroys every
framebuffer and clears the list. -/
def cleanupFrameBuffers (s : SwapchainResources) : SwapchainResources :=
  { s with framebuffers := [] }

/-- Embedding of `InitSwapchain` (lines 533-605).  The vkb swapchain build
can fail, in which case the function returns early (lines 548-553) leaving
every field untouched; on success it stores the returned images
(`get_images`, line 563) and the returned image views (`get_image_views`,
line 564 - the builder produces one view per image, which the caller of this
definition supplies as `views`), then creates the depth image and its
view. -/
def initSwapchain (buildResult : Option (List Nat)) (views : List Nat)
    (s : SwapchainResources) : SwapchainResources :=
  match buildResult with
  | none => s
  | some imgs =>
    { s with swapchainValid := true, swapchainImages := imgs,
             swapchainImageViews := views, depthImageView := some 0 }

/-- Embedding of `InitFrameBuffers` (lines 748-777): allocates a framebuffer
vector of size `_swapchainImages.size()` (line 762-763) and creates one
framebuffer per swapchain image view. -/
def initFrameBuffers (s : SwapchainResources) : SwapchainResources :=
  { s with framebuffers := List.range s.swapchainImages.length }

/-- Embedding of the recreate core of `OnWindowResize` (lines 313-324), after
the zero-size polling loop has established a positive extent: device idle
wait, `CleanupFrameBuffers`, `CleanupSwapchain`, store the new extent,
`InitSwapchain`, `InitFrameBuffers`. -/
def onWindowResizeRecreate (w h : Nat) (buildResult : Option (List Nat))
    (views : List Nat) (s : SwapchainResources) : SwapchainResources :=
  initFrameBuffers (initSwapchain buildResult views
    { cleanupSwapchain (cleanupFrameBuffers s) with
        windowExtentW := w, windowExtentH := h })

/-! ## Minimize / zero-size blocking waits (claim C7), from
`RenderingECSModule::OnWindowMinimize` (lines 263-288) and the zero-size
polling loop of `OnWindowResize` (lines 290-311) -/

/-- The SDL events the two wait loops distinguish: `quit` is `SDL_QUIT`;
`windowRestored` is an `SDL_WINDOWEVENT` carrying `SDL_WINDOWEVENT_RESTORED`;
`windowOther` is any other `SDL_WINDOWEVENT`; `other` is any other event. -/
inductive SDLEventType where
  | quit
  | windowRestored
  | windowOther
  | other
  deriving DecidableEq, Repr

/-- Outcome of the zero-size polling loop of `OnWindowResize`:
`exitProcess` models the `exit(0)` on `SDL_QUIT`; `returned w h` is the
normal fall-through to the recreate code with the last polled size. -/
inductive ResizeWaitOutcome where
  | exitProcess
  | returned (width height : Nat)
  deriving DecidableEq, Repr

/-- Embedding of the zero-size polling loop of `OnWindowResize`
(lines 294-311).  `sizes i` is what `SDL_GetWindowSize` reports at polling
iteration `i` and `events i` is the batch drained by the inner
`SDL_PollEvent` loop at iteration `i`.  The loop runs while the current
width or height is zero; inside it, any drained `SDL_QUIT` calls `exit(0)`,
then the size is re-polled.  `fuel` bounds the number of iterations
(`none` = still blocked). -/
def resizeWaitLoop (sizes : Nat → Nat × Nat) (events : Nat → List SDLEventType) :
    Nat → Nat → Nat → Nat → Option ResizeWaitOutcome
  | 0, _, _, _ => none
  | fuel + 1, w, h, i =>
    if w ≠ 0 ∧ h ≠ 0 then some (ResizeWaitOutcome.returned w h)
    else if (events i).contains SDLEventType.quit then some ResizeWaitOutcome.exitProcess
    else resizeWaitLoop sizes events fuel (sizes i).1 (sizes i).2 (i + 1)

/-- What one drained event batch makes `OnWindowMinimize` do: scanning the
batch in order, the first `SDL_QUIT` exits the process, the first restored
window event returns from the function, anything else is skipped
(lines 269-284). -/
inductive MinimizeScan where
  | exitProcess
  | returnNow
  | keepWaiting
  deriving DecidableEq, Repr

/-- Embedding of the inner `SDL_PollEvent` switch of `OnWindowMinimize`
(lines 269-284). -/
def minimizeScanEvents : List SDLEventType → MinimizeScan
  | [] => MinimizeScan.keepWaiting
  | SDLEventType.quit :: _ => MinimizeScan.exitProcess
  | SDLEventType.windowRestored :: _ => MinimizeScan.returnNow
  | _ :: rest => minimizeScanEvents rest

/-- Outcome of the `OnWindowMinimize` wait: `exitProcess` models `exit(0)`;
`returned i` is a normal return from the function during polling iteration
`i`.  The function polls no window size at all; `i` lets a caller relate
the return instant to an ambient window-size history. -/
inductive MinimizeWaitOutcome where
  | exitProcess
  | returned (iteration : Nat)
  deriving DecidableEq, Repr

/-- Embedding of the outer forever-loop of `OnWindowMinimize`
(lines 265-287): drain the batch of iteration `i`; if no quit and no
restored event was seen, sleep and poll again. -/
def minimizeWaitLoop (events : Nat → List SDLEventType) :
    Nat → Nat → Option MinimizeWaitOutcome
  | 0, _ => none
  | fuel + 1, i =>
    match minimizeScanEvents (events i) with
    | MinimizeScan.exitProcess => some MinimizeWaitOutcome.exitProcess
    | MinimizeScan.returnNow => some (MinimizeWaitOutcome.returned i)
    | MinimizeScan.keepWaiting => minimizeWaitLoop events fuel (i + 1)

/-- Concrete environment for the C7 counterexample: a restored window event
arrives in the very first drained batch. -/
def restoredFirstEvents : Nat → List SDLEventType :=
  fun _ => [SDLEventType.windowRestored]

/-- Concrete ambient window-size history for the C7 counterexample: the
window size SDL would report is (0, 0) at every instant. -/
def zeroWindowSizes : Nat → Nat × Nat :=
  fun _ => (0, 0)

/-! ## Runtime-appended terminal cleanup stage (claim C8), from the
Housekeeping and FinalCleanup systems registered in the
`RenderingECSModule` constructor (lines 205-235) and `PipelineStages.h` -/

/-- The pipeline stages.  The first seven are the fields of the
`PipelineStages` struct (`PipelineStages.h` lines 21-29) in declaration
order; `FinalCleanup` is the extra stage entity referenced by the
Housekeeping system (line 216). -/
inductive Stage where
  | InputUpdate
  | Update
  | Collisions
  | PreDraw
  | Draw
  | PostDraw
  | Housekeeping
  | FinalCleanup
  deriving DecidableEq, Repr

/-- Modelled from the spec: the `PipelineECSModule` translation unit that
creates the stage entities and their dependency chain is not among the
provided sources.  Per the spec (section 4.1, stage registration order) the
pre-existing pipeline runs the `PipelineStages` struct fields in declaration
order, `Housekeeping` last; `FinalCleanup` is initially not a phase of the
pipeline. -/
def initialStageOrder : List Stage :=
  [Stage.InputUpdate, Stage.Update, Stage.Collisions, Stage.PreDraw,
   Stage.Draw, Stage.PostDraw, Stage.Housekeeping]

/-- The scheduler state the claim is about: the ordered list of pipeline
phases, and whether the Material-cleanup system has run. -/
structure EcsPipelineState where
  stageOrder : List Stage
  materialsCleaned : Bool
  deriving DecidableEq, Repr

/-- Modelled from the spec (flecs phase semantics):
`FinalCleanup.add(flecs::Phase).depends_on(Housekeeping)` (line 216) makes
`FinalCleanup` a pipeline phase ordered after `Housekeeping`; adding a tag an
entity already has is a no-op, so the operation is idempotent.  Since
`Housekeeping` is the last pre-existing phase, the new phase slots after all
existing stages. -/
def addFinalCleanupPhase (order : List Stage) : List Stage :=
  if Stage.FinalCleanup ∈ order then order else order ++ [Stage.FinalCleanup]

/-- Embedding of the Housekeeping-stage system (lines 205-220): when the
`Input` singleton reports `isQuitting`, the `FinalCleanup` phase is appended
(and the render fence is waited on); otherwise nothing changes. -/
def housekeepingStep (isQuitting : Bool) (st : EcsPipelineState) : EcsPipelineState :=
  if isQuitting then { st with stageOrder := addFinalCleanupPhase st.stageOrder } else st

/-- The Material-cleanup system is registered with kind
`stages.FinalCleanup` (lines 222-235); during a tick it runs exactly when
`FinalCleanup` is a phase of the pipeline. -/
def runMaterialCleanupTick (st : EcsPipelineState) : EcsPipelineState :=
  if Stage.FinalCleanup ∈ st.stageOrder then { st with materialsCleaned := true } else st

/-! # Theorems settling the claims -/

/-- Pushing a sequence of actions appends them, in order, to the stored
deletor list. -/
theorem deletionQueue_pushAll_deletors (q : DeletionQueue) (as : List Nat) :
    (q.pushAll as).deletors = q.deletors ++ as := by
  induction as generalizing q with
  | nil => simp [DeletionQueue.pushAll]
  | cons a as ih =>
    show ((q.PushDeletor a).pushAll as).deletors = _
    rw [ih]
    simp [DeletionQueue.PushDeletor]

/-- Claim C1: for every sequence of `PushDeletor` calls to the deletion queue
followed by one `Flush`, the stored release actions execute in exact reverse
order of insertion; after the drain the queue is empty, and a second `Flush`
with no intervening push executes no actions. -/
theorem deletionQueue_drainAll_reverse_order (as : List Nat) :
    ((DeletionQueue.empty.pushAll as).Flush).1 = as.reverse ∧
    ((DeletionQueue.empty.pushAll as).Flush).2 = DeletionQueue.empty ∧
    ((((DeletionQueue.empty.pushAll as).Flush).2).Flush).1 = [] := by
  refine ⟨?_, rfl, rfl⟩
  simp [DeletionQueue.Flush, deletionQueue_pushAll_deletors, DeletionQueue.empty]

/-- Claim C9: `Input::GetState` returns exactly one of four states determined
by the previous and current sampled key flags - `Pressed` iff down now and
not down before, `Held` iff down in both samples, `Released` iff down before
and not now, `Idle` iff down in neither; a keycode absent from either sample
map is treated as not down (the lookup defaults to `false`); and `IsPressed`,
`IsHeld`, `IsIdle` agree with this classification, `IsHeld` being also true
in the `Pressed` state. -/
theorem input_state_classification (input : Input) (keycode : Nat) :
    (input.GetState keycode = KeyState.Pressed ↔
       (lookupKeyFlag input.currKeyFlags keycode = true ∧
        lookupKeyFlag input.prevKeyFlags keycode = false)) ∧
    (input.GetState keycode = KeyState.Held ↔
       (lookupKeyFlag input.prevKeyFlags keycode = true ∧
        lookupKeyFlag input.currKeyFlags keycode = true)) ∧
    (input.GetState keycode = KeyState.Released ↔
       (lookupKeyFlag input.prevKeyFlags keycode = true ∧
        lookupKeyFlag input.currKeyFlags keycode = false)) ∧
    (input.GetState keycode = KeyState.Idle ↔
       (lookupKeyFlag input.prevKeyFlags keycode = false ∧
        lookupKeyFlag input.currKeyFlags keycode = false)) ∧
    (lookupKeyFlag input.prevKeyFlags keycode =
       (input.prevKeyFlags.lookup keycode).getD false) ∧
    (lookupKeyFlag input.currKeyFlags keycode =
       (input.currKeyFlags.lookup keycode).getD false) ∧
    (input.IsPressed keycode = true ↔ input.GetState keycode = KeyState.Pressed) ∧
    (input.IsHeld keycode = true ↔
       (input.GetState keycode = KeyState.Pressed ∨
        input.GetState keycode = KeyState.Held)) ∧
    (input.IsIdle keycode = true ↔ input.GetState keycode = KeyState.Idle) := by
  have hdef : ∀ flags : List (Nat × Bool),
      lookupKeyFlag flags keycode = (flags.lookup keycode).getD false := by
    intro flags
    unfold lookupKeyFlag
    cases List.lookup keycode flags <;> rfl
  refine ⟨?_, ?_, ?_, ?_, hdef _, hdef _, ?_, ?_, ?_⟩ <;>
    cases hp : lookupKeyFlag input.prevKeyFlags keycode <;>
      cases hc : lookupKeyFlag input.currKeyFlags keycode <;>
        simp [Input.GetState, Input.IsPressed, Input.IsHeld, Input.IsIdle, hp, hc]

/-- Componentwise subtraction composes into subtracting the sum. -/
theorem vec3_sub_sub (a b c : Vec3) :
    Vec3.sub (Vec3.sub a b) c = Vec3.sub a (Vec3.add b c) := by
  simp only [Vec3.sub, Vec3.add, Vec3.mk.injEq]
  refine ⟨?_, ?_, ?_⟩ <;> ring

/-- Subtracting the zero vector is the identity. -/
theorem vec3_sub_zero (a : Vec3) : Vec3.sub a Vec3.zero = a := by
  simp [Vec3.sub, Vec3.zero]

/-- Adding the zero vector on the right is the identity. -/
theorem vec3_add_zero (a : Vec3) : Vec3.add a Vec3.zero = a := by
  simp [Vec3.add, Vec3.zero]

/-- The walk loop subtracts exactly the sum of the chain positions. -/
theorem transformNode_absWalk_eq (q : TransformNode) (acc : Vec3) :
    q.absWalk acc = Vec3.sub acc (Vec3.sumList q.chainPositions) := by
  induction q generalizing acc with
  | leaf pos =>
    simp [TransformNode.absWalk, TransformNode.chainPositions, Vec3.sumList,
      vec3_add_zero]
  | node pos q ih =>
    rw [TransformNode.absWalk, ih, vec3_sub_sub]
    rfl

/-- Claim C10: for every transform whose chain of parent transforms is
finite, `GetAbsPosition` returns the own position minus the sum of the
positions of all ancestor transforms (each ancestor position is subtracted
during the walk to the root), and a transform with no parent transform
returns its own position unchanged. -/
theorem transform_absPosition_subtracts_ancestors (t : TransformNode) :
    t.GetAbsPosition = Vec3.sub t.position (Vec3.sumList t.ancestorPositions) ∧
    (∀ pos : Vec3, TransformNode.GetAbsPosition (TransformNode.leaf pos) = pos) := by
  constructor
  · cases t with
    | leaf pos =>
      simp [TransformNode.GetAbsPosition, TransformNode.position,
        TransformNode.ancestorPositions, Vec3.sumList, vec3_sub_zero]
    | node pos q =>
      rw [TransformNode.GetAbsPosition, transformNode_absWalk_eq]
      rfl
  · intro pos
    rfl

/-- Claim C3 (evaluation of the code at the failing input): when the
dedicated upload fence is not signaled within the bounded wait - the
`vkWaitForFences` call returns `timeout` - `ImmediateSubmit` nevertheless
completes normally, resetting the upload fence and the command pool, and
raises no `TransferTimeoutError`: the wait result is discarded. -/
theorem immediateSubmit_timeout_completes :
    immediateSubmit VkResult.success VkResult.success VkResult.success
        VkResult.timeout =
      { control := ImmediateSubmitControl.completed
        uploadFenceReset := true
        uploadCommandPoolReset := true } ∧
    (immediateSubmit VkResult.success VkResult.success VkResult.success
        VkResult.timeout).control ≠
      ImmediateSubmitControl.raised UploadError.transferTimeout := by
  exact ⟨rfl, by decide⟩

/-- Claim C4 (evaluation of the code at the failing input): whenever the
platform constant `sizeof(SimpleMesh)` differs from `sizeof(SimpleVertex)`
and the mesh has at least one vertex, the bytes copied into the vertex
staging buffer differ from its allocated size (the allocation uses
`sizeof(SimpleMesh)`, the memcpy uses `sizeof(SimpleVertex)`), while the
index path is internally consistent and the device-local sizes merely mirror
the staging sizes. -/
theorem uploadMesh_vertex_staging_size_mismatch
    (sizeofSimpleMesh sizeofSimpleVertex sizeofUint32 numVertices numIndices : Nat)
    (hne : sizeofSimpleMesh ≠ sizeofSimpleVertex) (hpos : 0 < numVertices) :
    (uploadMeshSizes sizeofSimpleMesh sizeofSimpleVertex sizeofUint32
        numVertices numIndices).vertexBytesCopied ≠
      (uploadMeshSizes sizeofSimpleMesh sizeofSimpleVertex sizeofUint32
        numVertices numIndices).stagingVertexBufferSize ∧
    (uploadMeshSizes sizeofSimpleMesh sizeofSimpleVertex sizeofUint32
        numVertices numIndices).indexBytesCopied =
      (uploadMeshSizes sizeofSimpleMesh sizeofSimpleVertex sizeofUint32
        numVertices numIndices).stagingIndexBufferSize ∧
    (uploadMeshSizes sizeofSimpleMesh sizeofSimpleVertex sizeofUint32
        numVertices numIndices).gpuVertexBufferSize =
      (uploadMeshSizes sizeofSimpleMesh sizeofSimpleVertex sizeofUint32
        numVertices numIndices).stagingVertexBufferSize := by
  refine ⟨?_, rfl, rfl⟩
  simp only [uploadMeshSizes, ne_eq]
  intro hmul
  exact hne (Nat.eq_of_mul_eq_mul_left hpos hmul).symm

/-- Concrete instance of the vertex staging-size mismatch: with
`sizeof(SimpleMesh) = 80`, `sizeof(SimpleVertex) = 16` and a 3-vertex mesh,
the staging vertex buffer is allocated with 240 bytes while 48 bytes are
copied into it. -/
theorem uploadMesh_vertex_staging_size_mismatch_witness :
    (80 : Nat) ≠ 16 ∧ (0 : Nat) < 3 ∧
    ((uploadMeshSizes 80 16 4 3 6).vertexBytesCopied ≠
       (uploadMeshSizes 80 16 4 3 6).stagingVertexBufferSize ∧
     (uploadMeshSizes 80 16 4 3 6).indexBytesCopied =
       (uploadMeshSizes 80 16 4 3 6).stagingIndexBufferSize ∧
     (uploadMeshSizes 80 16 4 3 6).gpuVertexBufferSize =
       (uploadMeshSizes 80 16 4 3 6).stagingVertexBufferSize) :=
  ⟨by decide, by decide,
   uploadMesh_vertex_staging_size_mismatch 80 16 4 3 6 (by decide) (by decide)⟩

/-- Claim C5 counterexample: at the concrete present result
`VK_ERROR_OUT_OF_DATE_KHR` the claim fails - the engine indeed does not
abort, but nothing signals that the swapchain needs rebuilding (the branch
body is empty), so the conjunction stated by the claim is false. -/
theorem postDrawPresent_outOfDate_no_rebuild_signal :
    ¬ ((postDrawPresentHandling VkResult.errorOutOfDateKhr).fatalAbort = false ∧
       (postDrawPresentHandling VkResult.errorOutOfDateKhr).requestsSwapchainRebuild
         = true) := by
  decide

/-- Claim C5 as amended: an out-of-date or suboptimal present result is
non-fatal and every other non-success present result is fatal, but no
present result ever requests a swapchain rebuild - the recoverable branch is
an empty statement. -/
theorem postDrawPresent_amended (result : VkResult) :
    ((postDrawPresentHandling result).fatalAbort = true ↔
       (result ≠ VkResult.success ∧ result ≠ VkResult.errorOutOfDateKhr ∧
        result ≠ VkResult.suboptimalKhr)) ∧
    (postDrawPresentHandling result).requestsSwapchainRebuild = false := by
  cases result <;> decide

/-- Claim C2 (evaluation of the code at the failing input): on the draw
sequence whose materials reference pipelines [P1, P1, P2, P1], starting from
an unset bound pipeline, the draw loop invokes `BindPipeline` at every index
- 4 bind operations at indices 0, 1, 2, 3 - because `BindPipeline` never
assigns `currentPipeline` and nothing resets it at frame start, so the
pipeline-difference guard is always true. -/
theorem drawLoop_binds_every_draw :
    drawSystemBinds none 0 fourDrawSequence = [0, 1, 2, 3] ∧
    (drawSystemBinds none 0 fourDrawSequence).length = 4 := by
  decide

/-- Claim C6: after the recreate core of `OnWindowResize` runs with a window
extent whose width and height are both positive and the swapchain build
succeeds (the vkb builder returning one image view per image), the count of
framebuffers equals the count of swapchain images equals the count of
swapchain image views. -/
theorem onWindowResize_counts_equal (w h : Nat) (s : SwapchainResources)
    (imgs views : List Nat) (hw : 0 < w) (hh : 0 < h)
    (hv : views.length = imgs.length) :
    (onWindowResizeRecreate w h (some imgs) views s).framebuffers.length =
      (onWindowResizeRecreate w h (some imgs) views s).swapchainImages.length ∧
    (onWindowResizeRecreate w h (some imgs) views s).swapchainImages.length =
      (onWindowResizeRecreate w h (some imgs) views s).swapchainImageViews.length := by
  simp [onWindowResizeRecreate, initFrameBuffers, initSwapchain,
    cleanupSwapchain, cleanupFrameBuffers, hv]

/-- Concrete instance of the recreate count invariant, at extent 2 x 3 with
two swapchain images and two image views. -/
theorem onWindowResize_counts_equal_witness :
    (0 : Nat) < 2 ∧ (0 : Nat) < 3 ∧
    ([10, 11] : List Nat).length = ([5, 6] : List Nat).length ∧
    ((onWindowResizeRecreate 2 3 (some [5, 6]) [10, 11]
        { swapchainValid := true, swapchainImages := [9], swapchainImageViews := [8],
          framebuffers := [7], depthImageView := some 0,
          windowExtentW := 1, windowExtentH := 1 }).framebuffers.length =
      (onWindowResizeRecreate 2 3 (some [5, 6]) [10, 11]
        { swapchainValid := true, swapchainImages := [9], swapchainImageViews := [8],
          framebuffers := [7], depthImageView := some 0,
          windowExtentW := 1, windowExtentH := 1 }).swapchainImages.length ∧
     (onWindowResizeRecreate 2 3 (some [5, 6]) [10, 11]
        { swapchainValid := true, swapchainImages := [9], swapchainImageViews := [8],
          framebuffers := [7], depthImageView := some 0,
          windowExtentW := 1, windowExtentH := 1 }).swapchainImages.length =
      (onWindowResizeRecreate 2 3 (some [5, 6]) [10, 11]
        { swapchainValid := true, swapchainImages := [9], swapchainImageViews := [8],
          framebuffers := [7], depthImageView := some 0,
          windowExtentW := 1, windowExtentH := 1 }).swapchainImageViews.length) :=
  ⟨by decide, by decide, by decide,
   onWindowResize_counts_equal 2 3
     { swapchainValid := true, swapchainImages := [9], swapchainImageViews := [8],
       framebuffers := [7], depthImageView := some 0,
       windowExtentW := 1, windowExtentH := 1 }
     [5, 6] [10, 11] (by decide) (by decide) (by decide)⟩

/-- Claim C7 counterexample: an environment in which the first drained event
batch contains a window-restored event while the ambient window size is
(0, 0).  `OnWindowMinimize` returns normally at that very iteration - it
polls no window size at all - so the blocking wait returns normally while
the window extent has a zero dimension, refuting the claim for the
minimize wait. -/
theorem minimizeWait_returns_with_zero_extent :
    minimizeWaitLoop restoredFirstEvents 1 0 =
      some (MinimizeWaitOutcome.returned 0) ∧
    ¬ (0 < (zeroWindowSizes 0).1 ∧ 0 < (zeroWindowSizes 0).2) := by
  exact ⟨rfl, by decide⟩

/-- Whenever the zero-size polling loop of `OnWindowResize` returns
normally, both returned dimensions are strictly positive. -/
theorem resizeWaitLoop_returned_pos (sizes : Nat → Nat × Nat)
    (events : Nat → List SDLEventType) :
    ∀ fuel w h i w2 h2,
      resizeWaitLoop sizes events fuel w h i =
        some (ResizeWaitOutcome.returned w2 h2) →
      0 < w2 ∧ 0 < h2 := by
  intro fuel
  induction fuel with
  | zero =>
    intro w h i w2 h2 hres
    simp [resizeWaitLoop] at hres
  | succ n ih =>
    intro w h i w2 h2 hres
    rw [resizeWaitLoop] at hres
    by_cases hcond : w ≠ 0 ∧ h ≠ 0
    · rw [if_pos hcond] at hres
      simp only [Option.some.injEq, ResizeWaitOutcome.returned.injEq] at hres
      obtain ⟨rfl, rfl⟩ := hres
      exact ⟨Nat.pos_of_ne_zero hcond.1, Nat.pos_of_ne_zero hcond.2⟩
    · rw [if_neg hcond] at hres
      by_cases hq : (events i).contains SDLEventType.quit
      · rw [if_pos hq] at hres
        simp at hres
      · rw [if_neg hq] at hres
        exact ih _ _ _ _ _ hres

/-- A quit event drained while the polled size is still zero makes the
zero-size polling loop exit the process at once. -/
theorem resizeWaitLoop_quit_exits (sizes : Nat → Nat × Nat)
    (events : Nat → List SDLEventType) :
    ∀ fuel w h i, (w = 0 ∨ h = 0) →
      (events i).contains SDLEventType.quit = true →
      resizeWaitLoop sizes events (fuel + 1) w h i =
        some ResizeWaitOutcome.exitProcess := by
  intro fuel w h i hzero hq
  rw [resizeWaitLoop]
  have hcond : ¬ (w ≠ 0 ∧ h ≠ 0) := by
    rcases hzero with hz | hz <;> simp [hz]
  rw [if_neg hcond, if_pos hq]

/-- A quit event heading the drained batch makes `OnWindowMinimize` exit
the process at once. -/
theorem minimizeWaitLoop_quit_exits (events : Nat → List SDLEventType) :
    ∀ fuel i, minimizeScanEvents (events i) = MinimizeScan.exitProcess →
      minimizeWaitLoop events (fuel + 1) i =
        some MinimizeWaitOutcome.exitProcess := by
  intro fuel i hscan
  rw [minimizeWaitLoop, hscan]

/-- `OnWindowMinimize` returns normally only upon observing a restored
window event in the drained batch of the returning iteration - the window
extent plays no part in the decision. -/
theorem minimizeWaitLoop_returned_restored (events : Nat → List SDLEventType) :
    ∀ fuel i j,
      minimizeWaitLoop events fuel i = some (MinimizeWaitOutcome.returned j) →
      minimizeScanEvents (events j) = MinimizeScan.returnNow := by
  intro fuel
  induction fuel with
  | zero =>
    intro i j hres
    simp [minimizeWaitLoop] at hres
  | succ n ih =>
    intro i j hres
    rw [minimizeWaitLoop] at hres
    cases hscan : minimizeScanEvents (events i) with
    | exitProcess => rw [hscan] at hres; simp at hres
    | returnNow =>
      rw [hscan] at hres
      simp only [Option.some.injEq, MinimizeWaitOutcome.returned.injEq] at hres
      rw [← hres]
      exact hscan
    | keepWaiting =>
      rw [hscan] at hres
      exact ih _ _ hres

/-- Claim C7 as amended: the zero-size polling loop of `OnWindowResize`
never returns normally with a zero dimension - on every normal return both
polled dimensions are strictly positive - and a quit signal observed during
either blocking wait exits the process immediately; `OnWindowMinimize`,
however, returns as soon as a restored window event is drained, without
polling the window extent, so its return carries no extent guarantee. -/
theorem windowWaitLoops_amended :
    (∀ (sizes : Nat → Nat × Nat) (events : Nat → List SDLEventType)
        (fuel w h i w2 h2 : Nat),
      resizeWaitLoop sizes events fuel w h i =
        some (ResizeWaitOutcome.returned w2 h2) →
      0 < w2 ∧ 0 < h2) ∧
    (∀ (sizes : Nat → Nat × Nat) (events : Nat → List SDLEventType)
        (fuel w h i : Nat), (w = 0 ∨ h = 0) →
      (events i).contains SDLEventType.quit = true →
      resizeWaitLoop sizes events (fuel + 1) w h i =
        some ResizeWaitOutcome.exitProcess) ∧
    (∀ (events : Nat → List SDLEventType) (fuel i : Nat),
      minimizeScanEvents (events i) = MinimizeScan.exitProcess →
      minimizeWaitLoop events (fuel + 1) i =
        some MinimizeWaitOutcome.exitProcess) ∧
    (∀ (events : Nat → List SDLEventType) (fuel i j : Nat),
      minimizeWaitLoop events fuel i = some (MinimizeWaitOutcome.returned j) →
      minimizeScanEvents (events j) = MinimizeScan.returnNow) :=
  ⟨fun sizes events fuel w h i w2 h2 =>
      resizeWaitLoop_returned_pos sizes events fuel w h i w2 h2,
   fun sizes events fuel w h i =>
      resizeWaitLoop_quit_exits sizes events fuel w h i,
   fun events fuel i => minimizeWaitLoop_quit_exits events fuel i,
   fun events fuel i j => minimizeWaitLoop_returned_restored events fuel i j⟩

/-- Concrete instances of the four amended wait-loop properties, obtained by
applying the amended theorem at explicit environments. -/
theorem windowWaitLoops_amended_witness :
    ((0 : Nat) < 3 ∧ (0 : Nat) < 4) ∧
    resizeWaitLoop (fun _ => (0, 0)) (fun _ => [SDLEventType.quit]) 1 0 5 0 =
      some ResizeWaitOutcome.exitProcess ∧
    minimizeWaitLoop (fun _ => [SDLEventType.quit]) 1 0 =
      some MinimizeWaitOutcome.exitProcess ∧
    minimizeScanEvents ((fun _ => [SDLEventType.windowRestored]) 0) =
      MinimizeScan.returnNow :=
  ⟨windowWaitLoops_amended.1 (fun _ => (3, 4)) (fun _ => []) 2 0 0 0 3 4
      (by decide),
   windowWaitLoops_amended.2.1 (fun _ => (0, 0)) (fun _ => [SDLEventType.quit])
      0 0 5 0 (Or.inl rfl) (by decide),
   windowWaitLoops_amended.2.2.1 (fun _ => [SDLEventType.quit]) 0 0 (by decide),
   windowWaitLoops_amended.2.2.2 (fun _ => [SDLEventType.windowRestored]) 1 0 0
      (by decide)⟩

/-- Claim C8: when a quit condition is observed by the Housekeeping-stage
behavior, exactly one terminal `FinalCleanup` stage is appended at runtime,
ordered after all existing stages (the stage order becomes the pre-existing
order followed by `FinalCleanup`, with exactly one occurrence, and a second
quitting tick appends nothing more); the Material-cleanup behavior bound to
that terminal stage then runs, while without the quit observation neither
the append nor the cleanup happens. -/
theorem finalCleanup_appended_once_and_runs :
    (housekeepingStep true ⟨initialStageOrder, false⟩).stageOrder =
      initialStageOrder ++ [Stage.FinalCleanup] ∧
    (housekeepingStep true ⟨initialStageOrder, false⟩).stageOrder.count
      Stage.FinalCleanup = 1 ∧
    (housekeepingStep true
        (housekeepingStep true ⟨initialStageOrder, false⟩)).stageOrder =
      initialStageOrder ++ [Stage.FinalCleanup] ∧
    (runMaterialCleanupTick
        (housekeepingStep true ⟨initialStageOrder, false⟩)).materialsCleaned =
      true ∧
    (housekeepingStep false ⟨initialStageOrder, false⟩).stageOrder =
      initialStageOrder ∧
    (runMaterialCleanupTick ⟨initialStageOrder, false⟩).materialsCleaned =
      false := by
  decide

/-- Claim C6 counterexample: a recreate with positive extent 2 x 3 whose vkb
swapchain build fails.  `InitSwapchain` returns early (lines 548-553) leaving
the stale swapchain image list [9] in place - `CleanupSwapchain` clears the
image views but not `_swapchainImages` - and `InitFrameBuffers` still runs,
creating one framebuffer per stale image while zero image views exist, so
the counts-equal invariant of the claim fails (1 framebuffer, 1 image, 0
views). -/
theorem onWindowResize_buildFailure_counts_unequal :
    ¬ (((onWindowResizeRecreate 2 3 none []
          { swapchainValid := true, swapchainImages := [9],
            swapchainImageViews := [8], framebuffers := [7],
            depthImageView := some 0,
            windowExtentW := 1, windowExtentH := 1 }).framebuffers.length =
        (onWindowResizeRecreate 2 3 none []
          { swapchainValid := true, swapchainImages := [9],
            swapchainImageViews := [8], framebuffers := [7],
            depthImageView := some 0,
            windowExtentW := 1, windowExtentH := 1 }).swapchainImages.length) ∧
       ((onWindowResizeRecreate 2 3 none []
          { swapchainValid := true, swapchainImages := [9],
            swapchainImageViews := [8], framebuffers := [7],
            depthImageView := some 0,
            windowExtentW := 1, windowExtentH := 1 }).swapchainImages.length =
        (onWindowResizeRecreate 2 3 none []
          { swapchainValid := true, swapchainImages := [9],
            swapchainImageViews := [8], framebuffers := [7],
            depthImageView := some 0,
            windowExtentW := 1, windowExtentH := 1 }).swapchainImageViews.length)) := by
  decide
